import Mathlib

set_option linter.unnecessarySeqFocus false

/-!
Verification of the Selman interactive selection widget (src/selman).

The state machine of `core.py` is embedded shallowly: the `Selman` class
becomes a structure whose boards are total functions from labels to booleans
(the Python dicts are keyed by label and initialised to `False` on every
label of the selection), terminal output is abstracted to a trace of render
events (which row was redrawn with which text effect), and the Python
exceptions that can escape an action (the `StopIteration` of
`get_opposite_mutex_index` on a malformed mutex set, and the block on an
exhausted input stream) are made explicit in an `Err` type.  Each method of
the class becomes a function on the structure, following the source
statement by statement.
-/

/-- The six visual states of `printer.TextEffect`. -/
inductive TextEffect
  | UNFOCUSED
  | FOCUSED
  | SELECTED
  | SELECTED_FOCUSED
  | BANNED
  | BANNED_FOCUSED
deriving DecidableEq, Repr

/-- The key tokens after escape-sequence decoding: one constructor per entry
of the `key_events` dictionary of `Selman.__init__`, plus `unknown` for every
byte sequence the dictionary does not map (those fire no action). -/
inductive Key
  | jKey
  | kKey
  | downArrow
  | upArrow
  | cr
  | lf
  | nKey
  | qKey
  | ctrlC
  | unknown
deriving DecidableEq, Repr

/-- The ways a session can end abnormally: `stop_iteration` is the Python
`StopIteration` raised by `next(iter(s - {i}))` on an empty difference in
`get_opposite_mutex_index`; `input_exhausted` stands for the blocking read
when the modelled input stream has no further key. -/
inductive Err
  | stop_iteration
  | input_exhausted
deriving DecidableEq, Repr

/-- The state of a `Selman` instance (class `Selman` of `core.py`).  The two
boards are the dicts `sel_board` and `banned_board`, keyed by label; the
`renders` field is the trace of rows redrawn via `render_text_effect`
(row index paired with the effect drawn), recording the terminal writes the
claims speak about. -/
structure Selman where
  selection : List String
  col_offset : Nat
  allow_multiple_selection : Bool
  mutex_group : Option (List (List Nat))
  footer_comments : Option (List String)
  wipe_comments_after_select : Bool
  current_index : Nat
  sel_board : String → Bool
  banned_board : String → Bool
  terminate_flag : Bool
  renders : List (Nat × TextEffect)

/-- Pointwise update of a label-keyed board: `board[key] = v`. -/
def updateBoard (b : String → Bool) (key : String) (v : Bool) : String → Bool :=
  fun l => if l = key then v else b l

namespace Selman

/-- The `__init__` of class `Selman`: boards all false, focus at 0,
termination flag clear, no renders yet. -/
def init (selection : List String) (col_offset : Nat)
    (allow_multiple_selection : Bool) (mutex_group : Option (List (List Nat)))
    (footer_comments : Option (List String)) (wipe_comments_after_select : Bool) :
    Selman :=
  { selection := selection
    col_offset := col_offset
    allow_multiple_selection := allow_multiple_selection
    mutex_group := mutex_group
    footer_comments := footer_comments
    wipe_comments_after_select := wipe_comments_after_select
    current_index := 0
    sel_board := fun _ => false
    banned_board := fun _ => false
    terminate_flag := false
    renders := [] }

/-- The label at an index, `self.selection[i]`.  All session reads are at
valid indices, where `getD` agrees with Python indexing. -/
def label_at (s : Selman) (i : Nat) : String :=
  s.selection.getD i ""

/-- Record one redraw of row `i` with effect `e` in the trace. -/
def push_render (s : Selman) (i : Nat) (e : TextEffect) : Selman :=
  { s with renders := s.renders ++ [(i, e)] }

/-- `Selman.is_index_valid`. -/
def is_index_valid (s : Selman) (i : Nat) : Bool :=
  i < s.selection.length

/-- `Selman.is_index_selected`: reads the selected board at the label of the
index. -/
def is_index_selected (s : Selman) (i : Nat) : Bool :=
  s.sel_board (s.label_at i)

/-- `Selman.is_index_banned`: reads the banned board at the label of the
index. -/
def is_index_banned (s : Selman) (i : Nat) : Bool :=
  s.banned_board (s.label_at i)

/-- `Selman.render_text_effect`: with a valid explicit target index the row
of that index is redrawn (at a relative offset, cursor restored); with no
target, or an invalid one, the row of the current index is drawn. -/
def render_text_effect (s : Selman) (effect : TextEffect)
    (target_index : Option Nat) : Selman :=
  match target_index with
  | some i =>
    if s.is_index_valid i then s.push_render i effect
    else s.push_render s.current_index effect
  | none => s.push_render s.current_index effect

/-- `Selman.terminate`: set the termination flag. -/
def terminate (s : Selman) : Selman :=
  { s with terminate_flag := true }

/-- `Selman.set_to_focused`. -/
def set_to_focused (s : Selman) (target_index : Nat) : Selman :=
  if s.is_index_selected target_index then
    s.render_text_effect TextEffect.SELECTED_FOCUSED (some target_index)
  else if s.is_index_banned target_index then
    s.render_text_effect TextEffect.BANNED_FOCUSED (some target_index)
  else
    s.render_text_effect TextEffect.FOCUSED none

/-- `Selman.set_to_unfocused`. -/
def set_to_unfocused (s : Selman) (target_index : Nat) : Selman :=
  if s.is_index_selected target_index then
    s.render_text_effect TextEffect.SELECTED (some target_index)
  else if s.is_index_banned target_index then
    s.render_text_effect TextEffect.BANNED (some target_index)
  else
    s.render_text_effect TextEffect.UNFOCUSED (some target_index)

/-- `Selman.change_focus`: out-of-range targets return before any state
change or redraw; in-range ones unfocus the old row, move focus and focus the
new row. -/
def change_focus (s : Selman) (relative_move : Int) : Selman :=
  let target : Int := (s.current_index : Int) + relative_move
  if 0 ≤ target ∧ target < (s.selection.length : Int) then
    let s1 := s.set_to_unfocused s.current_index
    let s2 := { s1 with current_index := target.toNat }
    s2.set_to_focused s2.current_index
  else s

/-- `Selman.proceed`: render the focused row in its resting state and
terminate. -/
def proceed (s : Selman) : Selman :=
  let s1 :=
    if s.sel_board (s.label_at s.current_index) then
      s.render_text_effect TextEffect.SELECTED none
    else
      s.render_text_effect TextEffect.UNFOCUSED none
  s1.terminate

/-- `Selman.get_opposite_mutex_index`: scan the mutex groups for the first
one containing the index and take an element of the set minus the index;
`next(iter(...))` on an empty difference raises `StopIteration`, modelled as
`Err.stop_iteration`. -/
def get_opposite_mutex_index (s : Selman) (target_index : Nat) :
    Except Err (Option Nat) :=
  match s.mutex_group with
  | none => Except.ok none
  | some sets =>
    match sets.find? (fun g => g.contains target_index) with
    | none => Except.ok none
    | some g =>
      match (g.filter (fun x => x != target_index)).head? with
      | none => Except.error Err.stop_iteration
      | some j => Except.ok (some j)

/-- `Selman.ban_selection_by_index`: optionally render BANNED, then clear the
selected flag and set the banned flag of the label at the index. -/
def ban_selection_by_index (s : Selman) (target_index : Nat) (do_render : Bool) :
    Selman :=
  let s1 := if do_render then s.render_text_effect TextEffect.BANNED (some target_index) else s
  let s2 := { s1 with sel_board := updateBoard s1.sel_board (s1.label_at target_index) false }
  { s2 with banned_board := updateBoard s2.banned_board (s2.label_at target_index) true }

/-- `Selman.unban_selection_by_index`: optionally render UNFOCUSED, then
clear the banned flag of the label at the index. -/
def unban_selection_by_index (s : Selman) (target_index : Nat) (do_render : Bool) :
    Selman :=
  let s1 := if do_render then s.render_text_effect TextEffect.UNFOCUSED (some target_index) else s
  { s1 with banned_board := updateBoard s1.banned_board (s1.label_at target_index) false }

/-- `Selman.select_option`.  The result pairs the state after the call (also
on the exceptional path, where the mutations made before the raise stand, as
they do in Python) with the action outcome: the returned value, or the
exception. -/
def select_option (s : Selman) : Selman × Except Err (Option String) :=
  if s.allow_multiple_selection = false then
    let s1 := { s with sel_board := updateBoard s.sel_board (s.label_at s.current_index) true }
    let s2 := s1.render_text_effect TextEffect.SELECTED none
    let s3 := s2.terminate
    (s3, Except.ok (some (s3.label_at s3.current_index)))
  else
    if s.sel_board (s.label_at s.current_index) then
      -- toggle to unselect
      let s1 := { s with sel_board := updateBoard s.sel_board (s.label_at s.current_index) false }
      let s2 := s1.render_text_effect TextEffect.FOCUSED none
      match s2.get_opposite_mutex_index s2.current_index with
      | Except.error e => (s2, Except.error e)
      | Except.ok none => (s2, Except.ok none)
      | Except.ok (some opposite_index) =>
        if s2.is_index_banned opposite_index then
          (s2.unban_selection_by_index opposite_index true, Except.ok none)
        else (s2, Except.ok none)
    else
      -- toggle to select
      let s1 := { s with sel_board := updateBoard s.sel_board (s.label_at s.current_index) true }
      let s2 := s1.unban_selection_by_index s1.current_index false
      let s3 := s2.render_text_effect TextEffect.SELECTED_FOCUSED none
      match s3.get_opposite_mutex_index s3.current_index with
      | Except.error e => (s3, Except.error e)
      | Except.ok none => (s3, Except.ok none)
      | Except.ok (some opposite_index) =>
        (s3.ban_selection_by_index opposite_index true, Except.ok none)

/-- `Selman.manage_key_input` after byte decoding: dispatch the key token via
the `key_events` table; an unmapped token fires no action and returns
`None`. -/
def manage_key_input (s : Selman) (k : Key) : Selman × Except Err (Option String) :=
  match k with
  | Key.jKey => (s.change_focus 1, Except.ok none)
  | Key.downArrow => (s.change_focus 1, Except.ok none)
  | Key.kKey => (s.change_focus (-1), Except.ok none)
  | Key.upArrow => (s.change_focus (-1), Except.ok none)
  | Key.cr => s.select_option
  | Key.lf => s.select_option
  | Key.nKey => (s.proceed, Except.ok none)
  | Key.qKey => (s.terminate, Except.ok none)
  | Key.ctrlC => (s.terminate, Except.ok none)
  | Key.unknown => (s, Except.ok none)

/-- `Selman.initialize_focus`: after the cursor is moved up to the focus row,
the focused row is rendered FOCUSED (the cursor motions themselves are
outside the render trace). -/
def initialize_focus (s : Selman) : Selman :=
  s.render_text_effect TextEffect.FOCUSED none

/-- The read-dispatch loop of `selman_mainstream`, over a modelled input
stream of key tokens: each iteration dispatches one key, remembers the value
the action returned (`last_selection`), and stops once the termination flag
is set.  An exception from an action ends the loop with the state as mutated
so far; an exhausted stream stands for the read blocking forever. -/
def session_loop (s : Selman) (keys : List Key) : Selman × Except Err (Option String) :=
  match keys with
  | [] => (s, Except.error Err.input_exhausted)
  | k :: rest =>
    let out := s.manage_key_input k
    match out.2 with
    | Except.error e => (out.1, Except.error e)
    | Except.ok last_selection =>
      if out.1.terminate_flag then (out.1, Except.ok last_selection)
      else session_loop out.1 rest

/-- What `selman_mainstream` produces: the value returned (or the exception
re-raised after the `finally` block), the argument handed to
`termios.tcsetattr` in that block, and the state when the loop ended. -/
structure MainstreamResult (Mode : Type) where
  result : Except Err (Option String)
  restored_mode : Mode
  final_state : Selman

/-- `Selman.selman_mainstream`: capture the terminal mode (`old`), run the
initial focus render and the key loop inside a `try`, and in the `finally`
restore exactly `old`; after a normal exit return `last_selection` when
`allow_multiple_selection` is set and `None` otherwise. -/
def selman_mainstream {Mode : Type} (s : Selman) (keys : List Key) (mode : Mode) :
    MainstreamResult Mode :=
  let old := mode
  let s0 := s.initialize_focus
  let out := session_loop s0 keys
  { result :=
      match out.2 with
      | Except.ok last_selection =>
        Except.ok (if out.1.allow_multiple_selection then last_selection else none)
      | Except.error e => Except.error e
    restored_mode := old
    final_state := out.1 }

/-- The initial top-to-bottom draw of `Selman.run`: every row is printed
UNFOCUSED once, in index order. -/
def draw_unfocused_rows (s : Selman) : Selman :=
  { s with renders := s.renders ++ (List.range s.selection.length).map (fun i => (i, TextEffect.UNFOCUSED)) }

/-- `Selman.run`, the session entry point: draw all rows unfocused, then run
`selman_mainstream`. -/
def run {Mode : Type} (s : Selman) (keys : List Key) (mode : Mode) :
    MainstreamResult Mode :=
  selman_mainstream (s.draw_unfocused_rows) keys mode

/-- The states a session can pass through: the start state and everything
obtained from a reachable state by dispatching one key (including the state
left behind by an action that raised). -/
inductive Reachable (s0 : Selman) : Selman → Prop
  | refl : Reachable s0 s0
  | step (s1 : Selman) (k : Key) : Reachable s0 s1 → Reachable s0 (s1.manage_key_input k).1

end Selman

namespace Selman

/-! Field lemmas: which fields each operation leaves unchanged, and the board
values the mutating operations produce. -/

@[simp] lemma push_render_selection (s : Selman) (i : Nat) (e : TextEffect) :
    (s.push_render i e).selection = s.selection := rfl

@[simp] lemma push_render_mutex (s : Selman) (i : Nat) (e : TextEffect) :
    (s.push_render i e).mutex_group = s.mutex_group := rfl

@[simp] lemma push_render_multi (s : Selman) (i : Nat) (e : TextEffect) :
    (s.push_render i e).allow_multiple_selection = s.allow_multiple_selection := rfl

@[simp] lemma push_render_current (s : Selman) (i : Nat) (e : TextEffect) :
    (s.push_render i e).current_index = s.current_index := rfl

@[simp] lemma push_render_sel (s : Selman) (i : Nat) (e : TextEffect) :
    (s.push_render i e).sel_board = s.sel_board := rfl

@[simp] lemma push_render_banned (s : Selman) (i : Nat) (e : TextEffect) :
    (s.push_render i e).banned_board = s.banned_board := rfl

@[simp] lemma push_render_flag (s : Selman) (i : Nat) (e : TextEffect) :
    (s.push_render i e).terminate_flag = s.terminate_flag := rfl

@[simp] lemma render_selection (s : Selman) (e : TextEffect) (t : Option Nat) :
    (s.render_text_effect e t).selection = s.selection := by
  unfold render_text_effect; cases t <;> simp <;> split <;> simp

@[simp] lemma render_mutex (s : Selman) (e : TextEffect) (t : Option Nat) :
    (s.render_text_effect e t).mutex_group = s.mutex_group := by
  unfold render_text_effect; cases t <;> simp <;> split <;> simp

@[simp] lemma render_multi (s : Selman) (e : TextEffect) (t : Option Nat) :
    (s.render_text_effect e t).allow_multiple_selection = s.allow_multiple_selection := by
  unfold render_text_effect; cases t <;> simp <;> split <;> simp

@[simp] lemma render_current (s : Selman) (e : TextEffect) (t : Option Nat) :
    (s.render_text_effect e t).current_index = s.current_index := by
  unfold render_text_effect; cases t <;> simp <;> split <;> simp

@[simp] lemma render_sel (s : Selman) (e : TextEffect) (t : Option Nat) :
    (s.render_text_effect e t).sel_board = s.sel_board := by
  unfold render_text_effect; cases t <;> simp <;> split <;> simp

@[simp] lemma render_banned (s : Selman) (e : TextEffect) (t : Option Nat) :
    (s.render_text_effect e t).banned_board = s.banned_board := by
  unfold render_text_effect; cases t <;> simp <;> split <;> simp

@[simp] lemma render_flag (s : Selman) (e : TextEffect) (t : Option Nat) :
    (s.render_text_effect e t).terminate_flag = s.terminate_flag := by
  unfold render_text_effect; cases t <;> simp <;> split <;> simp

@[simp] lemma label_at_congr (s t : Selman) (i : Nat) (h : s.selection = t.selection) :
    s.label_at i = t.label_at i := by
  unfold label_at; rw [h]

@[simp] lemma terminate_selection (s : Selman) : s.terminate.selection = s.selection := rfl
@[simp] lemma terminate_mutex (s : Selman) : s.terminate.mutex_group = s.mutex_group := rfl
@[simp] lemma terminate_multi (s : Selman) :
    s.terminate.allow_multiple_selection = s.allow_multiple_selection := rfl
@[simp] lemma terminate_current (s : Selman) : s.terminate.current_index = s.current_index := rfl
@[simp] lemma terminate_sel (s : Selman) : s.terminate.sel_board = s.sel_board := rfl
@[simp] lemma terminate_banned (s : Selman) : s.terminate.banned_board = s.banned_board := rfl
@[simp] lemma terminate_flag_set (s : Selman) : s.terminate.terminate_flag = true := rfl

end Selman

namespace Selman

@[simp] lemma ban_selection (s : Selman) (i : Nat) (r : Bool) :
    (s.ban_selection_by_index i r).selection = s.selection := by
  unfold ban_selection_by_index; split <;> simp

@[simp] lemma ban_mutex (s : Selman) (i : Nat) (r : Bool) :
    (s.ban_selection_by_index i r).mutex_group = s.mutex_group := by
  unfold ban_selection_by_index; split <;> simp

@[simp] lemma ban_multi (s : Selman) (i : Nat) (r : Bool) :
    (s.ban_selection_by_index i r).allow_multiple_selection = s.allow_multiple_selection := by
  unfold ban_selection_by_index; split <;> simp

@[simp] lemma ban_current (s : Selman) (i : Nat) (r : Bool) :
    (s.ban_selection_by_index i r).current_index = s.current_index := by
  unfold ban_selection_by_index; split <;> simp

@[simp] lemma ban_flag (s : Selman) (i : Nat) (r : Bool) :
    (s.ban_selection_by_index i r).terminate_flag = s.terminate_flag := by
  unfold ban_selection_by_index; split <;> simp

lemma ban_sel_board (s : Selman) (i : Nat) (r : Bool) :
    (s.ban_selection_by_index i r).sel_board = updateBoard s.sel_board (s.label_at i) false := by
  unfold ban_selection_by_index
  split
  · simp [label_at]
  · rfl

lemma ban_banned_board (s : Selman) (i : Nat) (r : Bool) :
    (s.ban_selection_by_index i r).banned_board
      = updateBoard s.banned_board (s.label_at i) true := by
  unfold ban_selection_by_index
  split
  · simp [label_at]
  · rfl

@[simp] lemma unban_selection (s : Selman) (i : Nat) (r : Bool) :
    (s.unban_selection_by_index i r).selection = s.selection := by
  unfold unban_selection_by_index; split <;> simp

@[simp] lemma unban_mutex (s : Selman) (i : Nat) (r : Bool) :
    (s.unban_selection_by_index i r).mutex_group = s.mutex_group := by
  unfold unban_selection_by_index; split <;> simp

@[simp] lemma unban_multi (s : Selman) (i : Nat) (r : Bool) :
    (s.unban_selection_by_index i r).allow_multiple_selection = s.allow_multiple_selection := by
  unfold unban_selection_by_index; split <;> simp

@[simp] lemma unban_current (s : Selman) (i : Nat) (r : Bool) :
    (s.unban_selection_by_index i r).current_index = s.current_index := by
  unfold unban_selection_by_index; split <;> simp

@[simp] lemma unban_flag (s : Selman) (i : Nat) (r : Bool) :
    (s.unban_selection_by_index i r).terminate_flag = s.terminate_flag := by
  unfold unban_selection_by_index; split <;> simp

@[simp] lemma unban_sel_board (s : Selman) (i : Nat) (r : Bool) :
    (s.unban_selection_by_index i r).sel_board = s.sel_board := by
  unfold unban_selection_by_index; split <;> simp

lemma unban_banned_board (s : Selman) (i : Nat) (r : Bool) :
    (s.unban_selection_by_index i r).banned_board
      = updateBoard s.banned_board (s.label_at i) false := by
  unfold unban_selection_by_index
  split
  · simp [label_at]
  · rfl

@[simp] lemma set_to_focused_selection (s : Selman) (i : Nat) :
    (s.set_to_focused i).selection = s.selection := by
  unfold set_to_focused; split <;> try split
  all_goals simp

@[simp] lemma set_to_focused_mutex (s : Selman) (i : Nat) :
    (s.set_to_focused i).mutex_group = s.mutex_group := by
  unfold set_to_focused; split <;> try split
  all_goals simp

@[simp] lemma set_to_focused_multi (s : Selman) (i : Nat) :
    (s.set_to_focused i).allow_multiple_selection = s.allow_multiple_selection := by
  unfold set_to_focused; split <;> try split
  all_goals simp

@[simp] lemma set_to_focused_current (s : Selman) (i : Nat) :
    (s.set_to_focused i).current_index = s.current_index := by
  unfold set_to_focused; split <;> try split
  all_goals simp

@[simp] lemma set_to_focused_sel (s : Selman) (i : Nat) :
    (s.set_to_focused i).sel_board = s.sel_board := by
  unfold set_to_focused; split <;> try split
  all_goals simp

@[simp] lemma set_to_focused_banned (s : Selman) (i : Nat) :
    (s.set_to_focused i).banned_board = s.banned_board := by
  unfold set_to_focused; split <;> try split
  all_goals simp

@[simp] lemma set_to_focused_flag (s : Selman) (i : Nat) :
    (s.set_to_focused i).terminate_flag = s.terminate_flag := by
  unfold set_to_focused; split <;> try split
  all_goals simp

@[simp] lemma set_to_unfocused_selection (s : Selman) (i : Nat) :
    (s.set_to_unfocused i).selection = s.selection := by
  unfold set_to_unfocused; split <;> try split
  all_goals simp

@[simp] lemma set_to_unfocused_mutex (s : Selman) (i : Nat) :
    (s.set_to_unfocused i).mutex_group = s.mutex_group := by
  unfold set_to_unfocused; split <;> try split
  all_goals simp

@[simp] lemma set_to_unfocused_multi (s : Selman) (i : Nat) :
    (s.set_to_unfocused i).allow_multiple_selection = s.allow_multiple_selection := by
  unfold set_to_unfocused; split <;> try split
  all_goals simp

@[simp] lemma set_to_unfocused_current (s : Selman) (i : Nat) :
    (s.set_to_unfocused i).current_index = s.current_index := by
  unfold set_to_unfocused; split <;> try split
  all_goals simp

@[simp] lemma set_to_unfocused_sel (s : Selman) (i : Nat) :
    (s.set_to_unfocused i).sel_board = s.sel_board := by
  unfold set_to_unfocused; split <;> try split
  all_goals simp

@[simp] lemma set_to_unfocused_banned (s : Selman) (i : Nat) :
    (s.set_to_unfocused i).banned_board = s.banned_board := by
  unfold set_to_unfocused; split <;> try split
  all_goals simp

@[simp] lemma set_to_unfocused_flag (s : Selman) (i : Nat) :
    (s.set_to_unfocused i).terminate_flag = s.terminate_flag := by
  unfold set_to_unfocused; split <;> try split
  all_goals simp

end Selman

namespace Selman

lemma get_opposite_congr (s t : Selman) (i : Nat) (h : s.mutex_group = t.mutex_group) :
    s.get_opposite_mutex_index i = t.get_opposite_mutex_index i := by
  unfold get_opposite_mutex_index; rw [h]

@[simp] lemma change_focus_selection (s : Selman) (d : Int) :
    (s.change_focus d).selection = s.selection := by
  unfold change_focus; dsimp only; split <;> simp

@[simp] lemma change_focus_mutex (s : Selman) (d : Int) :
    (s.change_focus d).mutex_group = s.mutex_group := by
  unfold change_focus; dsimp only; split <;> simp

@[simp] lemma change_focus_multi (s : Selman) (d : Int) :
    (s.change_focus d).allow_multiple_selection = s.allow_multiple_selection := by
  unfold change_focus; dsimp only; split <;> simp

@[simp] lemma change_focus_sel (s : Selman) (d : Int) :
    (s.change_focus d).sel_board = s.sel_board := by
  unfold change_focus; dsimp only; split <;> simp

@[simp] lemma change_focus_banned (s : Selman) (d : Int) :
    (s.change_focus d).banned_board = s.banned_board := by
  unfold change_focus; dsimp only; split <;> simp

@[simp] lemma change_focus_flag (s : Selman) (d : Int) :
    (s.change_focus d).terminate_flag = s.terminate_flag := by
  unfold change_focus; dsimp only; split <;> simp

lemma change_focus_current_lt (s : Selman) (d : Int) (h : s.current_index < s.selection.length) :
    (s.change_focus d).current_index < s.selection.length := by
  unfold change_focus
  dsimp only
  split
  · rename_i hcond
    simp only [set_to_focused_current, set_to_unfocused_current, set_to_focused_selection,
      set_to_unfocused_selection]
    omega
  · exact h

@[simp] lemma proceed_selection (s : Selman) : s.proceed.selection = s.selection := by
  unfold proceed; split <;> simp

@[simp] lemma proceed_mutex (s : Selman) : s.proceed.mutex_group = s.mutex_group := by
  unfold proceed; split <;> simp

@[simp] lemma proceed_multi (s : Selman) :
    s.proceed.allow_multiple_selection = s.allow_multiple_selection := by
  unfold proceed; split <;> simp

@[simp] lemma proceed_current (s : Selman) : s.proceed.current_index = s.current_index := by
  unfold proceed; split <;> simp

@[simp] lemma proceed_sel (s : Selman) : s.proceed.sel_board = s.sel_board := by
  unfold proceed; split <;> simp

@[simp] lemma proceed_banned (s : Selman) : s.proceed.banned_board = s.banned_board := by
  unfold proceed; split <;> simp

@[simp] lemma proceed_flag (s : Selman) : s.proceed.terminate_flag = true := by
  unfold proceed; split <;> simp

lemma select_single_eq (s : Selman) (h : s.allow_multiple_selection = false) :
    s.select_option =
      ((({ s with sel_board := updateBoard s.sel_board (s.label_at s.current_index) true
         } : Selman).render_text_effect TextEffect.SELECTED none).terminate,
       Except.ok (some (s.label_at s.current_index))) := by
  unfold select_option
  rw [if_pos h]
  constructor

end Selman

namespace Selman

lemma get_opposite_lift (t s : Selman) (h1 : t.mutex_group = s.mutex_group)
    (h2 : t.current_index = s.current_index) :
    t.get_opposite_mutex_index t.current_index = s.get_opposite_mutex_index s.current_index := by
  rw [h2, get_opposite_congr t s _ h1]

lemma is_index_banned_lift (t s : Selman) (i : Nat) (h1 : t.banned_board = s.banned_board)
    (h2 : t.selection = s.selection) :
    t.is_index_banned i = s.is_index_banned i := by
  unfold is_index_banned label_at
  rw [h1, h2]

/-- Unfolding of `select_option` in multi-selection mode on an unselected
focused item (the toggle-to-select branch). -/
lemma select_multi_unsel_eq (s : Selman)
    (h1 : s.allow_multiple_selection = true)
    (h2 : s.sel_board (s.label_at s.current_index) = false) :
    s.select_option =
      (match s.get_opposite_mutex_index s.current_index with
       | Except.error e =>
         ((({ s with sel_board := updateBoard s.sel_board (s.label_at s.current_index) true
            } : Selman).unban_selection_by_index s.current_index false
            ).render_text_effect TextEffect.SELECTED_FOCUSED none, Except.error e)
       | Except.ok none =>
         ((({ s with sel_board := updateBoard s.sel_board (s.label_at s.current_index) true
            } : Selman).unban_selection_by_index s.current_index false
            ).render_text_effect TextEffect.SELECTED_FOCUSED none, Except.ok none)
       | Except.ok (some p) =>
         (((({ s with sel_board := updateBoard s.sel_board (s.label_at s.current_index) true
            } : Selman).unban_selection_by_index s.current_index false
            ).render_text_effect TextEffect.SELECTED_FOCUSED none
            ).ban_selection_by_index p true, Except.ok none)) := by
  unfold select_option
  rw [if_neg (by simp [h1])]
  rw [if_neg (by simp [h2])]
  dsimp only
  rw [get_opposite_lift _ s (by simp) (by simp)]

/-- Unfolding of `select_option` in multi-selection mode on a selected
focused item (the toggle-to-unselect branch). -/
lemma select_multi_sel_eq (s : Selman)
    (h1 : s.allow_multiple_selection = true)
    (h2 : s.sel_board (s.label_at s.current_index) = true) :
    s.select_option =
      (match s.get_opposite_mutex_index s.current_index with
       | Except.error e =>
         ((({ s with sel_board := updateBoard s.sel_board (s.label_at s.current_index) false
            } : Selman).render_text_effect TextEffect.FOCUSED none), Except.error e)
       | Except.ok none =>
         ((({ s with sel_board := updateBoard s.sel_board (s.label_at s.current_index) false
            } : Selman).render_text_effect TextEffect.FOCUSED none), Except.ok none)
       | Except.ok (some p) =>
         if s.is_index_banned p then
           (((({ s with sel_board := updateBoard s.sel_board (s.label_at s.current_index) false
              } : Selman).render_text_effect TextEffect.FOCUSED none
              ).unban_selection_by_index p true), Except.ok none)
         else
           ((({ s with sel_board := updateBoard s.sel_board (s.label_at s.current_index) false
              } : Selman).render_text_effect TextEffect.FOCUSED none), Except.ok none)) := by
  unfold select_option
  rw [if_neg (by simp [h1])]
  rw [if_pos h2]
  dsimp only
  rw [get_opposite_lift _ s (by simp) (by simp)]
  rcases s.get_opposite_mutex_index s.current_index with e | o
  · rfl
  · rcases o with _ | p
    · rfl
    · dsimp only
      rw [is_index_banned_lift _ s p (by simp) (by simp)]

lemma select_option_fields (s : Selman) :
    (s.select_option).1.selection = s.selection ∧
    (s.select_option).1.mutex_group = s.mutex_group ∧
    (s.select_option).1.allow_multiple_selection = s.allow_multiple_selection ∧
    (s.select_option).1.current_index = s.current_index := by
  by_cases h1 : s.allow_multiple_selection = false
  · rw [select_single_eq s h1]; simp
  · have h1t : s.allow_multiple_selection = true := by
      revert h1; cases s.allow_multiple_selection <;> simp
    by_cases h2 : s.sel_board (s.label_at s.current_index) = true
    · rw [select_multi_sel_eq s h1t h2]
      rcases hopp : s.get_opposite_mutex_index s.current_index with e | o
      · simp
      · rcases o with _ | p
        · simp
        · dsimp only
          split <;> simp
    · have h2f : s.sel_board (s.label_at s.current_index) = false := by
        revert h2; cases s.sel_board (s.label_at s.current_index) <;> simp
      rw [select_multi_unsel_eq s h1t h2f]
      rcases hopp : s.get_opposite_mutex_index s.current_index with e | o
      · simp
      · rcases o with _ | p <;> simp

@[simp] lemma select_option_selection (s : Selman) :
    (s.select_option).1.selection = s.selection := (select_option_fields s).1

@[simp] lemma select_option_mutex (s : Selman) :
    (s.select_option).1.mutex_group = s.mutex_group := (select_option_fields s).2.1

@[simp] lemma select_option_multi (s : Selman) :
    (s.select_option).1.allow_multiple_selection = s.allow_multiple_selection :=
  (select_option_fields s).2.2.1

@[simp] lemma select_option_current (s : Selman) :
    (s.select_option).1.current_index = s.current_index := (select_option_fields s).2.2.2

@[simp] lemma manage_selection (s : Selman) (k : Key) :
    (s.manage_key_input k).1.selection = s.selection := by
  cases k <;> simp [manage_key_input]

@[simp] lemma manage_mutex (s : Selman) (k : Key) :
    (s.manage_key_input k).1.mutex_group = s.mutex_group := by
  cases k <;> simp [manage_key_input]

@[simp] lemma manage_multi (s : Selman) (k : Key) :
    (s.manage_key_input k).1.allow_multiple_selection = s.allow_multiple_selection := by
  cases k <;> simp [manage_key_input]

lemma manage_current_lt (s : Selman) (k : Key) (h : s.current_index < s.selection.length) :
    (s.manage_key_input k).1.current_index < (s.manage_key_input k).1.selection.length := by
  cases k <;> simp [manage_key_input] <;>
    first
      | exact h
      | exact change_focus_current_lt s 1 h
      | exact change_focus_current_lt s (-1) h

end Selman

namespace Selman

lemma select_unsel_some_boards (s : Selman) (p : Nat)
    (h1 : s.allow_multiple_selection = true)
    (h2 : s.sel_board (s.label_at s.current_index) = false)
    (hopp : s.get_opposite_mutex_index s.current_index = Except.ok (some p)) :
    (s.select_option).1.sel_board
        = updateBoard (updateBoard s.sel_board (s.label_at s.current_index) true)
            (s.label_at p) false ∧
    (s.select_option).1.banned_board
        = updateBoard (updateBoard s.banned_board (s.label_at s.current_index) false)
            (s.label_at p) true ∧
    (s.select_option).2 = Except.ok none := by
  rw [select_multi_unsel_eq s h1 h2, hopp]
  dsimp only
  refine ⟨?_, ?_, rfl⟩ <;>
    simp [ban_sel_board, ban_banned_board, unban_banned_board, label_at]

lemma select_unsel_none_boards (s : Selman)
    (h1 : s.allow_multiple_selection = true)
    (h2 : s.sel_board (s.label_at s.current_index) = false)
    (hopp : s.get_opposite_mutex_index s.current_index = Except.ok none) :
    (s.select_option).1.sel_board
        = updateBoard s.sel_board (s.label_at s.current_index) true ∧
    (s.select_option).1.banned_board
        = updateBoard s.banned_board (s.label_at s.current_index) false ∧
    (s.select_option).2 = Except.ok none := by
  rw [select_multi_unsel_eq s h1 h2, hopp]
  dsimp only
  refine ⟨?_, ?_, rfl⟩ <;> simp [unban_banned_board, label_at]

lemma select_unsel_error_boards (s : Selman) (e : Err)
    (h1 : s.allow_multiple_selection = true)
    (h2 : s.sel_board (s.label_at s.current_index) = false)
    (hopp : s.get_opposite_mutex_index s.current_index = Except.error e) :
    (s.select_option).1.sel_board
        = updateBoard s.sel_board (s.label_at s.current_index) true ∧
    (s.select_option).1.banned_board
        = updateBoard s.banned_board (s.label_at s.current_index) false ∧
    (s.select_option).2 = Except.error e := by
  rw [select_multi_unsel_eq s h1 h2, hopp]
  dsimp only
  refine ⟨?_, ?_, rfl⟩ <;> simp [unban_banned_board, label_at]

lemma select_sel_unban_boards (s : Selman) (p : Nat)
    (h1 : s.allow_multiple_selection = true)
    (h2 : s.sel_board (s.label_at s.current_index) = true)
    (hopp : s.get_opposite_mutex_index s.current_index = Except.ok (some p))
    (hban : s.is_index_banned p = true) :
    (s.select_option).1.sel_board
        = updateBoard s.sel_board (s.label_at s.current_index) false ∧
    (s.select_option).1.banned_board
        = updateBoard s.banned_board (s.label_at p) false ∧
    (s.select_option).2 = Except.ok none := by
  rw [select_multi_sel_eq s h1 h2, hopp]
  dsimp only
  rw [if_pos hban]
  refine ⟨?_, ?_, rfl⟩ <;> simp [unban_banned_board, label_at]

lemma select_sel_noban_boards (s : Selman) (p : Nat)
    (h1 : s.allow_multiple_selection = true)
    (h2 : s.sel_board (s.label_at s.current_index) = true)
    (hopp : s.get_opposite_mutex_index s.current_index = Except.ok (some p))
    (hban : s.is_index_banned p = false) :
    (s.select_option).1.sel_board
        = updateBoard s.sel_board (s.label_at s.current_index) false ∧
    (s.select_option).1.banned_board = s.banned_board ∧
    (s.select_option).2 = Except.ok none := by
  rw [select_multi_sel_eq s h1 h2, hopp]
  dsimp only
  rw [if_neg (by simp [hban])]
  refine ⟨?_, ?_, rfl⟩ <;> simp [label_at]

lemma select_sel_none_boards (s : Selman)
    (h1 : s.allow_multiple_selection = true)
    (h2 : s.sel_board (s.label_at s.current_index) = true)
    (hopp : s.get_opposite_mutex_index s.current_index = Except.ok none) :
    (s.select_option).1.sel_board
        = updateBoard s.sel_board (s.label_at s.current_index) false ∧
    (s.select_option).1.banned_board = s.banned_board ∧
    (s.select_option).2 = Except.ok none := by
  rw [select_multi_sel_eq s h1 h2, hopp]
  dsimp only
  refine ⟨?_, ?_, rfl⟩ <;> simp [label_at]

lemma select_sel_error_boards (s : Selman) (e : Err)
    (h1 : s.allow_multiple_selection = true)
    (h2 : s.sel_board (s.label_at s.current_index) = true)
    (hopp : s.get_opposite_mutex_index s.current_index = Except.error e) :
    (s.select_option).1.sel_board
        = updateBoard s.sel_board (s.label_at s.current_index) false ∧
    (s.select_option).1.banned_board = s.banned_board ∧
    (s.select_option).2 = Except.error e := by
  rw [select_multi_sel_eq s h1 h2, hopp]
  dsimp only
  refine ⟨?_, ?_, rfl⟩ <;> simp [label_at]

lemma select_single_boards (s : Selman)
    (h : s.allow_multiple_selection = false) :
    (s.select_option).1.sel_board
        = updateBoard s.sel_board (s.label_at s.current_index) true ∧
    (s.select_option).1.banned_board = s.banned_board ∧
    (s.select_option).1.terminate_flag = true ∧
    (s.select_option).2 = Except.ok (some (s.label_at s.current_index)) := by
  rw [select_single_eq s h]
  refine ⟨?_, ?_, ?_, ?_⟩ <;> simp [label_at]

end Selman

namespace Selman

/-- The per-label board invariant: a label is never selected and banned at
once, and in single-selection mode no label is ever banned. -/
def boards_ok (s : Selman) : Prop :=
  (∀ l, s.sel_board l = true → s.banned_board l = false) ∧
  (s.allow_multiple_selection = false → ∀ l, s.banned_board l = false)

lemma boards_ok_of_eq (s t : Selman) (hsel : t.sel_board = s.sel_board)
    (hb : t.banned_board = s.banned_board)
    (hm : t.allow_multiple_selection = s.allow_multiple_selection)
    (h : boards_ok s) : boards_ok t := by
  refine ⟨fun l hl => ?_, fun hf l => ?_⟩
  · rw [hb]
    exact h.1 l (by rw [← hsel]; exact hl)
  · rw [hb]
    exact h.2 (by rw [← hm]; exact hf) l

lemma boards_ok_select (s : Selman) (h : boards_ok s) : boards_ok (s.select_option).1 := by
  obtain ⟨hnb, hsb⟩ := h
  by_cases h1 : s.allow_multiple_selection = false
  · obtain ⟨hs, hb, _, _⟩ := select_single_boards s h1
    refine ⟨fun l _ => ?_, fun _ l => ?_⟩
    · rw [hb]; exact hsb h1 l
    · rw [hb]; exact hsb h1 l
  · have h1t : s.allow_multiple_selection = true := by
      revert h1; cases s.allow_multiple_selection <;> simp
    refine ⟨?_, fun hf => ?_⟩
    swap
    · rw [select_option_multi, h1t] at hf; cases hf
    by_cases h2 : s.sel_board (s.label_at s.current_index) = true
    · -- toggle to unselect: sel only lowered, banned only lowered
      rcases hopp : s.get_opposite_mutex_index s.current_index with e | o
      · obtain ⟨hs, hb, _⟩ := select_sel_error_boards s e h1t h2 hopp
        intro l hl
        rw [hs] at hl
        rw [hb]
        unfold updateBoard at hl
        by_cases hL : l = s.label_at s.current_index
        · rw [if_pos hL] at hl; cases hl
        · rw [if_neg hL] at hl; exact hnb l hl
      · rcases o with _ | p
        · obtain ⟨hs, hb, _⟩ := select_sel_none_boards s h1t h2 hopp
          intro l hl
          rw [hs] at hl
          rw [hb]
          unfold updateBoard at hl
          by_cases hL : l = s.label_at s.current_index
          · rw [if_pos hL] at hl; cases hl
          · rw [if_neg hL] at hl; exact hnb l hl
        · by_cases hban : s.is_index_banned p = true
          · obtain ⟨hs, hb, _⟩ := select_sel_unban_boards s p h1t h2 hopp hban
            intro l hl
            rw [hs] at hl
            rw [hb]
            unfold updateBoard at hl ⊢
            by_cases hP : l = s.label_at p
            · rw [if_pos hP]
            · rw [if_neg hP]
              by_cases hL : l = s.label_at s.current_index
              · rw [if_pos hL] at hl; cases hl
              · rw [if_neg hL] at hl; exact hnb l hl
          · have hbanf : s.is_index_banned p = false := by
              revert hban; cases s.is_index_banned p <;> simp
            obtain ⟨hs, hb, _⟩ := select_sel_noban_boards s p h1t h2 hopp hbanf
            intro l hl
            rw [hs] at hl
            rw [hb]
            unfold updateBoard at hl
            by_cases hL : l = s.label_at s.current_index
            · rw [if_pos hL] at hl; cases hl
            · rw [if_neg hL] at hl; exact hnb l hl
    · -- toggle to select: the focused label is unbanned, a banned partner is unselected
      have h2f : s.sel_board (s.label_at s.current_index) = false := by
        revert h2; cases s.sel_board (s.label_at s.current_index) <;> simp
      rcases hopp : s.get_opposite_mutex_index s.current_index with e | o
      · obtain ⟨hs, hb, _⟩ := select_unsel_error_boards s e h1t h2f hopp
        intro l hl
        rw [hs] at hl
        rw [hb]
        unfold updateBoard at hl ⊢
        by_cases hL : l = s.label_at s.current_index
        · rw [if_pos hL]
        · rw [if_neg hL] at hl ⊢; exact hnb l hl
      · rcases o with _ | p
        · obtain ⟨hs, hb, _⟩ := select_unsel_none_boards s h1t h2f hopp
          intro l hl
          rw [hs] at hl
          rw [hb]
          unfold updateBoard at hl ⊢
          by_cases hL : l = s.label_at s.current_index
          · rw [if_pos hL]
          · rw [if_neg hL] at hl ⊢; exact hnb l hl
        · obtain ⟨hs, hb, _⟩ := select_unsel_some_boards s p h1t h2f hopp
          intro l hl
          rw [hs] at hl
          rw [hb]
          unfold updateBoard at hl ⊢
          by_cases hP : l = s.label_at p
          · rw [if_pos hP] at hl; cases hl
          · rw [if_neg hP] at hl ⊢
            by_cases hL : l = s.label_at s.current_index
            · rw [if_pos hL]
            · rw [if_neg hL] at hl ⊢; exact hnb l hl

lemma boards_ok_manage (s : Selman) (k : Key) (h : boards_ok s) :
    boards_ok (s.manage_key_input k).1 := by
  cases k <;>
    first
      | exact boards_ok_select s h
      | exact boards_ok_of_eq s _ (by simp [manage_key_input]) (by simp [manage_key_input])
          (by simp [manage_key_input]) h

lemma boards_ok_reachable (s0 t : Selman) (h0 : boards_ok s0) (h : Reachable s0 t) :
    boards_ok t := by
  induction h with
  | refl => exact h0
  | step s1 k hr ih => exact boards_ok_manage s1 k ih

lemma boards_ok_init (selection : List String) (co : Nat) (multi : Bool)
    (mg : Option (List (List Nat))) (fc : Option (List String)) (w : Bool) :
    boards_ok (Selman.init selection co multi mg fc w) := by
  refine ⟨fun l hl => ?_, fun hf l => ?_⟩ <;> simp [init]

end Selman

namespace Selman

lemma get_opposite_ne (s : Selman) (i j : Nat)
    (h : s.get_opposite_mutex_index i = Except.ok (some j)) : j ≠ i := by
  unfold get_opposite_mutex_index at h
  rcases hmg : s.mutex_group with _ | sets
  · rw [hmg] at h; cases h
  · rw [hmg] at h
    dsimp only at h
    rcases hf : sets.find? (fun g => g.contains i) with _ | g
    · rw [hf] at h; cases h
    · rw [hf] at h
      dsimp only at h
      rcases hh : (g.filter (fun x => x != i)).head? with _ | j0
      · rw [hh] at h; cases h
      · rw [hh] at h
        injection h with h1
        injection h1 with h2
        subst h2
        have hmem : j0 ∈ g.filter (fun x => x != i) := by
          cases hfl : g.filter (fun x => x != i) with
          | nil => rw [hfl] at hh; cases hh
          | cons x xs =>
            rw [hfl] at hh
            injection hh with hx
            subst hx
            exact List.mem_cons_self x xs
        have := List.of_mem_filter hmem
        simpa using this

/-- In the toggle-to-unselect branch the selected board is always the
focused label set to false, whatever the mutex lookup does. -/
lemma select_sel_branch_sel_board (s : Selman)
    (h1 : s.allow_multiple_selection = true)
    (h2 : s.sel_board (s.label_at s.current_index) = true) :
    (s.select_option).1.sel_board
      = updateBoard s.sel_board (s.label_at s.current_index) false := by
  rcases hopp : s.get_opposite_mutex_index s.current_index with e | o
  · exact (select_sel_error_boards s e h1 h2 hopp).1
  · rcases o with _ | p
    · exact (select_sel_none_boards s h1 h2 hopp).1
    · by_cases hban : s.is_index_banned p = true
      · exact (select_sel_unban_boards s p h1 h2 hopp hban).1
      · have hbanf : s.is_index_banned p = false := by
          revert hban; cases s.is_index_banned p <;> simp
        exact (select_sel_noban_boards s p h1 h2 hopp hbanf).1

/-- The inductive invariant behind claim C2: along a session started at `s`,
the structural fields are those of `s`, the focus stays in range, and the
labels of the mutex pair `(iA, iB)` are never both selected. -/
def pair_inv (s : Selman) (iA iB : Nat) (t : Selman) : Prop :=
  t.selection = s.selection ∧ t.mutex_group = s.mutex_group ∧
  t.allow_multiple_selection = true ∧ t.current_index < t.selection.length ∧
  ¬(t.sel_board (s.label_at iA) = true ∧ t.sel_board (s.label_at iB) = true)

lemma pair_inv_of_eq (s : Selman) (iA iB : Nat) (t u : Selman)
    (hsel : u.sel_board = t.sel_board) (hselc : u.selection = t.selection)
    (hmx : u.mutex_group = t.mutex_group)
    (hmu : u.allow_multiple_selection = t.allow_multiple_selection)
    (hcur : u.current_index < u.selection.length)
    (ht : pair_inv s iA iB t) : pair_inv s iA iB u := by
  obtain ⟨h1, h2, h3, _, h5⟩ := ht
  exact ⟨hselc.trans h1, hmx.trans h2, hmu.trans h3, hcur, by rw [hsel]; exact h5⟩

lemma pair_inv_select (s : Selman) (iA iB : Nat)
    (hA : s.get_opposite_mutex_index iA = Except.ok (some iB))
    (hB : s.get_opposite_mutex_index iB = Except.ok (some iA))
    (hlA : iA < s.selection.length) (hlB : iB < s.selection.length)
    (hd : ∀ i, i < s.selection.length → ∀ j, j < s.selection.length → i ≠ j →
      s.label_at i ≠ s.label_at j)
    (t : Selman) (ht : pair_inv s iA iB t) : pair_inv s iA iB (t.select_option).1 := by
  obtain ⟨hsc, hmx, hmu, hcur, hnb⟩ := ht
  have hcur2 : (t.select_option).1.current_index < (t.select_option).1.selection.length := by
    rw [select_option_current, select_option_selection]; exact hcur
  refine ⟨by simp [hsc], by simp [hmx], by simp [hmu], hcur2, ?_⟩
  by_cases hts : t.sel_board (t.label_at t.current_index) = true
  · -- toggle to unselect: the selected board is only lowered
    rw [select_sel_branch_sel_board t hmu hts]
    unfold updateBoard
    intro hboth
    apply hnb
    constructor
    · rcases hboth with ⟨ha, _⟩
      by_cases hL : s.label_at iA = t.label_at t.current_index
      · rw [if_pos hL] at ha; cases ha
      · rw [if_neg hL] at ha; exact ha
    · rcases hboth with ⟨_, hb⟩
      by_cases hL : s.label_at iB = t.label_at t.current_index
      · rw [if_pos hL] at hb; cases hb
      · rw [if_neg hL] at hb; exact hb
  · -- toggle to select
    have htsf : t.sel_board (t.label_at t.current_index) = false := by
      revert hts; cases t.sel_board (t.label_at t.current_index) <;> simp
    have hlab : ∀ i : Nat, t.label_at i = s.label_at i := fun i =>
      label_at_congr t s i hsc
    by_cases hcA : t.current_index = iA
    · -- selecting A itself: the partner lookup finds B and bans it
      have hoppA : t.get_opposite_mutex_index t.current_index
          = Except.ok (some iB) := by
        rw [hcA, get_opposite_congr t s iA hmx]; exact hA
      obtain ⟨hs, _, _⟩ := select_unsel_some_boards t iB hmu htsf hoppA
      rw [hs]
      intro hboth
      rcases hboth with ⟨_, hb⟩
      unfold updateBoard at hb
      rw [hlab iB, if_pos rfl] at hb
      cases hb
    · by_cases hcB : t.current_index = iB
      · -- selecting B itself: the partner lookup finds A and bans it
        have hoppB : t.get_opposite_mutex_index t.current_index
            = Except.ok (some iA) := by
          rw [hcB, get_opposite_congr t s iB hmx]; exact hB
        obtain ⟨hs, _, _⟩ := select_unsel_some_boards t iA hmu htsf hoppB
        rw [hs]
        intro hboth
        rcases hboth with ⟨ha, _⟩
        unfold updateBoard at ha
        rw [hlab iA, if_pos rfl] at ha
        cases ha
      · -- selecting some third item: its label differs from both pair labels
        have hcl : t.current_index < s.selection.length := by rw [← hsc]; exact hcur
        have hLA : t.label_at t.current_index ≠ s.label_at iA := by
          rw [hlab]; exact hd t.current_index hcl iA hlA hcA
        have hLB : t.label_at t.current_index ≠ s.label_at iB := by
          rw [hlab]; exact hd t.current_index hcl iB hlB hcB
        have main : ∀ lab : String,
            lab = s.label_at iA ∨ lab = s.label_at iB →
            (t.select_option).1.sel_board lab = true → t.sel_board lab = true := by
          intro lab hor hval
          rcases hopp : t.get_opposite_mutex_index t.current_index with e | o
          · obtain ⟨hs, _, _⟩ := select_unsel_error_boards t e hmu htsf hopp
            rw [hs] at hval
            unfold updateBoard at hval
            have hne : lab ≠ t.label_at t.current_index := by
              rcases hor with h | h <;> rw [h] <;> intro hq <;>
                first
                  | exact hLA hq.symm
                  | exact hLB hq.symm
            rw [if_neg hne] at hval
            exact hval
          · rcases o with _ | p
            · obtain ⟨hs, _, _⟩ := select_unsel_none_boards t hmu htsf hopp
              rw [hs] at hval
              unfold updateBoard at hval
              have hne : lab ≠ t.label_at t.current_index := by
                rcases hor with h | h <;> rw [h] <;> intro hq <;>
                  first
                    | exact hLA hq.symm
                    | exact hLB hq.symm
              rw [if_neg hne] at hval
              exact hval
            · obtain ⟨hs, _, _⟩ := select_unsel_some_boards t p hmu htsf hopp
              rw [hs] at hval
              unfold updateBoard at hval
              by_cases hp : lab = t.label_at p
              · rw [if_pos hp] at hval; cases hval
              · rw [if_neg hp] at hval
                have hne : lab ≠ t.label_at t.current_index := by
                  rcases hor with h | h <;> rw [h] <;> intro hq <;>
                    first
                      | exact hLA hq.symm
                      | exact hLB hq.symm
                rw [if_neg hne] at hval
                exact hval
        intro hboth
        exact hnb ⟨main _ (Or.inl rfl) hboth.1, main _ (Or.inr rfl) hboth.2⟩

lemma pair_inv_step (s : Selman) (iA iB : Nat)
    (hA : s.get_opposite_mutex_index iA = Except.ok (some iB))
    (hB : s.get_opposite_mutex_index iB = Except.ok (some iA))
    (hlA : iA < s.selection.length) (hlB : iB < s.selection.length)
    (hd : ∀ i, i < s.selection.length → ∀ j, j < s.selection.length → i ≠ j →
      s.label_at i ≠ s.label_at j)
    (t : Selman) (ht : pair_inv s iA iB t) (k : Key) :
    pair_inv s iA iB (t.manage_key_input k).1 := by
  have hcur := ht.2.2.2.1
  cases k <;>
    first
      | exact pair_inv_select s iA iB hA hB hlA hlB hd t ht
      | exact pair_inv_of_eq s iA iB t _ (by simp [manage_key_input])
          (by simp [manage_key_input]) (by simp [manage_key_input])
          (by simp [manage_key_input])
          (manage_current_lt t _ hcur)
          ht

lemma pair_inv_reachable (s : Selman) (iA iB : Nat)
    (hA : s.get_opposite_mutex_index iA = Except.ok (some iB))
    (hB : s.get_opposite_mutex_index iB = Except.ok (some iA))
    (hlA : iA < s.selection.length) (hlB : iB < s.selection.length)
    (hd : ∀ i, i < s.selection.length → ∀ j, j < s.selection.length → i ≠ j →
      s.label_at i ≠ s.label_at j)
    (h0 : pair_inv s iA iB s) (t : Selman) (h : Reachable s t) :
    pair_inv s iA iB t := by
  induction h with
  | refl => exact h0
  | step s1 k hr ih => exact pair_inv_step s iA iB hA hB hlA hlB hd s1 ih k

end Selman

namespace Selman

/-- The focused item's mutex lookup is benign: no partner, or a partner whose
label differs from the focused label (in particular the lookup raises no
`StopIteration`). -/
def opposite_label_ok (s : Selman) : Bool :=
  match s.get_opposite_mutex_index s.current_index with
  | Except.ok none => true
  | Except.ok (some p) => s.label_at p != s.label_at s.current_index
  | Except.error _ => false

lemma opposite_label_ok_congr (u t : Selman) (hmx : u.mutex_group = t.mutex_group)
    (hc : u.current_index = t.current_index) (hs : u.selection = t.selection) :
    opposite_label_ok u = opposite_label_ok t := by
  unfold opposite_label_ok
  rw [get_opposite_lift u t hmx hc]
  rcases t.get_opposite_mutex_index t.current_index with e | o
  · rfl
  · rcases o with _ | p
    · rfl
    · dsimp only
      unfold label_at
      rw [hs, hc]

/-- `n` consecutive `select_option` calls (the repeated Enter of claim C6),
stopping at the first exception. -/
def select_iter (s : Selman) : Nat → Selman × Except Err Unit
  | 0 => (s, Except.ok ())
  | n+1 =>
    match select_iter s n with
    | (t, Except.error e) => (t, Except.error e)
    | (t, Except.ok _) =>
      match t.select_option with
      | (t1, Except.ok _) => (t1, Except.ok ())
      | (t1, Except.error e) => (t1, Except.error e)

/-- One multi-mode toggle with a benign mutex lookup: the action returns
normally, the focused label's selected flag flips, and its banned flag ends
false unless the toggle was a deselection, which leaves it untouched. -/
lemma toggle_step (t : Selman) (h1 : t.allow_multiple_selection = true)
    (h2 : opposite_label_ok t = true) :
    (t.select_option).2 = Except.ok none ∧
    (t.select_option).1.sel_board (t.label_at t.current_index)
      = ! t.sel_board (t.label_at t.current_index) ∧
    (t.select_option).1.banned_board (t.label_at t.current_index)
      = (if t.sel_board (t.label_at t.current_index) = true then
          t.banned_board (t.label_at t.current_index) else false) := by
  by_cases hts : t.sel_board (t.label_at t.current_index) = true
  · rw [hts]
    rcases hopp : t.get_opposite_mutex_index t.current_index with e | o
    · unfold opposite_label_ok at h2
      rw [hopp] at h2
      cases h2
    · rcases o with _ | p
      · obtain ⟨hs, hb, hr⟩ := select_sel_none_boards t h1 hts hopp
        refine ⟨hr, ?_, ?_⟩
        · rw [hs]; unfold updateBoard; rw [if_pos rfl]; rfl
        · rw [hb]; simp
      · have hpl : t.label_at p ≠ t.label_at t.current_index := by
          unfold opposite_label_ok at h2
          rw [hopp] at h2
          simpa using h2
        by_cases hban : t.is_index_banned p = true
        · obtain ⟨hs, hb, hr⟩ := select_sel_unban_boards t p h1 hts hopp hban
          refine ⟨hr, ?_, ?_⟩
          · rw [hs]; unfold updateBoard; rw [if_pos rfl]; rfl
          · rw [hb]; unfold updateBoard
            rw [if_neg (fun hq => hpl hq.symm)]
            simp
        · have hbanf : t.is_index_banned p = false := by
            revert hban; cases t.is_index_banned p <;> simp
          obtain ⟨hs, hb, hr⟩ := select_sel_noban_boards t p h1 hts hopp hbanf
          refine ⟨hr, ?_, ?_⟩
          · rw [hs]; unfold updateBoard; rw [if_pos rfl]; rfl
          · rw [hb]; simp
  · have htsf : t.sel_board (t.label_at t.current_index) = false := by
      revert hts; cases t.sel_board (t.label_at t.current_index) <;> simp
    rw [htsf]
    rcases hopp : t.get_opposite_mutex_index t.current_index with e | o
    · unfold opposite_label_ok at h2
      rw [hopp] at h2
      cases h2
    · rcases o with _ | p
      · obtain ⟨hs, hb, hr⟩ := select_unsel_none_boards t h1 htsf hopp
        refine ⟨hr, ?_, ?_⟩
        · rw [hs]; unfold updateBoard; rw [if_pos rfl]; rfl
        · rw [hb]; unfold updateBoard; rw [if_pos rfl]; rfl
      · have hpl : t.label_at p ≠ t.label_at t.current_index := by
          unfold opposite_label_ok at h2
          rw [hopp] at h2
          simpa using h2
        obtain ⟨hs, hb, hr⟩ := select_unsel_some_boards t p h1 htsf hopp
        refine ⟨hr, ?_, ?_⟩
        · rw [hs]; unfold updateBoard
          rw [if_neg (fun hq => hpl hq.symm), if_pos rfl]
          rfl
        · rw [hb]; unfold updateBoard
          rw [if_neg (fun hq => hpl hq.symm), if_pos rfl]
          rfl

/-- The inductive content of claim C6: after `n` toggles from an unselected
focused item, the run is exception-free, the structure is unchanged, the
selected flag follows the parity of `n`, and the banned flag is false once at
least one toggle has happened. -/
lemma select_iter_spec (s : Selman) (h1 : s.allow_multiple_selection = true)
    (h2 : opposite_label_ok s = true)
    (h3 : s.sel_board (s.label_at s.current_index) = false) :
    ∀ n : Nat,
      (select_iter s n).2 = Except.ok () ∧
      (select_iter s n).1.selection = s.selection ∧
      (select_iter s n).1.mutex_group = s.mutex_group ∧
      (select_iter s n).1.current_index = s.current_index ∧
      (select_iter s n).1.allow_multiple_selection = true ∧
      opposite_label_ok (select_iter s n).1 = true ∧
      (select_iter s n).1.sel_board (s.label_at s.current_index) = decide (n % 2 = 1) ∧
      (1 ≤ n → (select_iter s n).1.banned_board (s.label_at s.current_index) = false) := by
  intro n
  induction n with
  | zero =>
    refine ⟨rfl, rfl, rfl, rfl, h1, h2, by simpa using h3, ?_⟩
    intro h
    exact absurd h (by decide)
  | succ n ih =>
    obtain ⟨hok, hsc, hmx, hcur, hmul, hol, hsel, hban⟩ := ih
    rcases hq : select_iter s n with ⟨t, r⟩
    rw [hq] at hok hsc hmx hcur hmul hol hsel hban
    dsimp only at hok hsc hmx hcur hmul hol hsel hban
    subst hok
    have hLA : t.label_at t.current_index = s.label_at s.current_index := by
      unfold label_at
      rw [hsc, hcur]
    obtain ⟨tok, tsel, tban⟩ := toggle_step t hmul hol
    rcases hs2 : t.select_option with ⟨t1, r1⟩
    rw [hs2] at tok tsel tban
    dsimp only at tok tsel tban
    subst tok
    have hstep : select_iter s (n + 1) = (t1, Except.ok ()) := by
      show (match select_iter s n with
        | (t, Except.error e) => (t, Except.error e)
        | (t, Except.ok _) =>
          match t.select_option with
          | (t1, Except.ok _) => (t1, Except.ok ())
          | (t1, Except.error e) => (t1, Except.error e)) = (t1, Except.ok ())
      rw [hq]
      dsimp only
      rw [hs2]
    have ht1sc : t1.selection = s.selection := by
      have := select_option_selection t
      rw [hs2] at this
      dsimp only at this
      rw [this, hsc]
    have ht1mx : t1.mutex_group = s.mutex_group := by
      have := select_option_mutex t
      rw [hs2] at this
      dsimp only at this
      rw [this, hmx]
    have ht1cur : t1.current_index = s.current_index := by
      have := select_option_current t
      rw [hs2] at this
      dsimp only at this
      rw [this, hcur]
    have ht1mul : t1.allow_multiple_selection = true := by
      have := select_option_multi t
      rw [hs2] at this
      dsimp only at this
      rw [this, hmul]
    have ht1ol : opposite_label_ok t1 = true := by
      have hpre : opposite_label_ok t1 = opposite_label_ok t := by
        apply opposite_label_ok_congr
        · have := select_option_mutex t
          rw [hs2] at this
          exact this
        · have := select_option_current t
          rw [hs2] at this
          exact this
        · have := select_option_selection t
          rw [hs2] at this
          exact this
      rw [hpre, hol]
    rw [hstep]
    refine ⟨rfl, ht1sc, ht1mx, ht1cur, ht1mul, ht1ol, ?_, ?_⟩
    · rw [hLA] at tsel
      rw [tsel, hsel]
      rcases Nat.mod_two_eq_zero_or_one n with hp | hp
      · have hp2 : (n + 1) % 2 = 1 := by omega
        simp [hp, hp2]
      · have hp2 : (n + 1) % 2 = 0 := by omega
        simp [hp, hp2]
    · intro _
      rw [hLA] at tban
      rw [tban]
      by_cases hn : 1 ≤ n
      · rw [hban hn]
        simp
      · have hn0 : n = 0 := by omega
        subst hn0
        rw [hsel]
        simp
end Selman

namespace Selman

/-! Concrete sessions used by the claim theorems and witnesses. -/

/-- The single-selection scenario of the spec: items A, B, C, no mutex
groups, no footer. -/
def single_session_scenario : Selman :=
  Selman.init ["A", "B", "C"] 0 false none none true

/-- A single-selection session over two items. -/
def single_pair_session : Selman :=
  Selman.init ["A", "B"] 0 false none none true

/-- The multi-selection mutex scenario of the spec: items A and B forming the
mutex pair (0, 1). -/
def mutex_pair_scenario : Selman :=
  Selman.init ["A", "B"] 0 true (some [[0, 1]]) none true

/-- A session whose two items carry the same label. -/
def duplicate_label_session : Selman :=
  Selman.init ["X", "X"] 0 true none none true

end Selman

open Selman

/-- C1 (code_bug): the spec and the docstring of `Selman.run` promise the
label of the activated item in single-selection mode and `None` in
multi-selection mode, but the final guard of `selman_mainstream` is
inverted (`if self.allow_multiple_selection: return last_selection`): on the
spec's own scenario (items A, B, C, single-selection, keys j, j, Enter) the
loop selects item 2 with label C, yet the session returns `None`. -/
theorem c1_run_single_mode_returns_none :
    (Selman.run single_session_scenario [Key.jKey, Key.jKey, Key.cr] ()).result
        = Except.ok none ∧
    (Selman.run single_session_scenario
        [Key.jKey, Key.jKey, Key.cr] ()).final_state.current_index = 2 ∧
    (Selman.run single_session_scenario
        [Key.jKey, Key.jKey, Key.cr] ()).final_state.is_index_selected 2 = true ∧
    single_session_scenario.label_at 2 = "C" ∧
    single_session_scenario.allow_multiple_selection = false := by
  refine ⟨rfl, rfl, rfl, rfl, rfl⟩

/-- C3: in single-selection mode one `select_option` call yields the focused
label, sets the termination flag (so the session ends on that call) and marks
the focused item selected. -/
theorem c3_single_activate_terminates_with_label (s : Selman)
    (h : s.allow_multiple_selection = false) :
    (s.select_option).2 = Except.ok (some (s.label_at s.current_index)) ∧
    (s.select_option).1.terminate_flag = true ∧
    (s.select_option).1.is_index_selected s.current_index = true := by
  obtain ⟨hs, hb, hf, hr⟩ := select_single_boards s h
  refine ⟨hr, hf, ?_⟩
  unfold is_index_selected
  rw [label_at_congr _ s _ (select_option_selection s), hs]
  unfold updateBoard
  rw [if_pos rfl]

/-- C3 witness: the theorem applied to a concrete single-selection session. -/
theorem c3_witness :
    single_pair_session.allow_multiple_selection = false ∧
    ((single_pair_session.select_option).2
        = Except.ok (some (single_pair_session.label_at single_pair_session.current_index)) ∧
      (single_pair_session.select_option).1.terminate_flag = true ∧
      (single_pair_session.select_option).1.is_index_selected
        single_pair_session.current_index = true) :=
  ⟨rfl, c3_single_activate_terminates_with_label single_pair_session rfl⟩

/-- C4 counterexample: the claim says the `n` key causes no action in
single-selection mode; in this single-selection session the `n` key fires
`proceed`, which sets the termination flag that was clear before. -/
theorem c4_counterexample_n_fires_in_single_mode :
    single_pair_session.allow_multiple_selection = false ∧
    single_pair_session.terminate_flag = false ∧
    (single_pair_session.manage_key_input Key.nKey).1.terminate_flag = true ∧
    (single_pair_session.manage_key_input Key.nKey).1 = single_pair_session.proceed := by
  refine ⟨rfl, rfl, rfl, rfl⟩

/-- C4 amended: the `n` key is bound to `proceed` unconditionally, so it ends
the session without activating in both selection modes, not only in
multi-selection mode. -/
theorem c4_n_key_proceeds_in_both_modes (s : Selman) :
    s.manage_key_input Key.nKey = (s.proceed, Except.ok none) ∧
    (s.proceed).terminate_flag = true :=
  ⟨rfl, proceed_flag s⟩

/-- C5: along any session from construction, no label is ever recorded as
both selected and banned. -/
theorem c5_never_selected_and_banned (selection : List String) (co : Nat)
    (multi : Bool) (mg : Option (List (List Nat))) (fc : Option (List String))
    (w : Bool) (t : Selman)
    (h : Reachable (Selman.init selection co multi mg fc w) t) (l : String) :
    ¬(t.sel_board l = true ∧ t.banned_board l = true) := by
  have hok := boards_ok_reachable _ t (boards_ok_init selection co multi mg fc w) h
  rintro ⟨hs, hb⟩
  have hfalse := hok.1 l hs
  rw [hfalse] at hb
  cases hb

/-- C5 witness: the invariant read off at the start state of a concrete
session. -/
theorem c5_witness :
    ¬((Selman.init ["A"] 0 false none none true).sel_board "A" = true ∧
      (Selman.init ["A"] 0 false none none true).banned_board "A" = true) :=
  c5_never_selected_and_banned ["A"] 0 false none none true _ Reachable.refl "A"

/-- C7: a focus move whose target falls outside the item range is a complete
no-op: the state (focus, boards, termination flag, render trace) is returned
unchanged and no error path exists. -/
theorem c7_out_of_range_focus_noop (s : Selman) (delta : Int)
    (h : (s.current_index : Int) + delta < 0 ∨
      (s.selection.length : Int) ≤ (s.current_index : Int) + delta) :
    s.change_focus delta = s := by
  unfold change_focus
  dsimp only
  rw [if_neg]
  rintro ⟨h1, h2⟩
  omega

/-- C7 witness: moving up from focus 0 is a no-op. -/
theorem c7_witness :
    ((single_pair_session.current_index : Int) + (-1) < 0 ∨
      (single_pair_session.selection.length : Int)
        ≤ (single_pair_session.current_index : Int) + (-1)) ∧
    single_pair_session.change_focus (-1) = single_pair_session :=
  ⟨by decide, c7_out_of_range_focus_noop single_pair_session (-1) (by decide)⟩

/-- C8: the terminal mode captured at the start of `selman_mainstream` is the
exact value handed to the restore call of its `finally` block, on every exit
path (termination by any action, exhausted input, or an exception raised by
an action mid-loop), and the same holds through the `run` entry point. -/
theorem c8_terminal_mode_roundtrip {Mode : Type} (s : Selman) (keys : List Key)
    (mode : Mode) :
    (Selman.selman_mainstream s keys mode).restored_mode = mode ∧
    (Selman.run s keys mode).restored_mode = mode :=
  ⟨rfl, rfl⟩

/-- C9: the boards are keyed by label, not by index: two indices with equal
labels are indistinguishable to every flag read, and banning or unbanning one
of them sets the flags of the other. -/
theorem c9_boards_keyed_by_label (s : Selman) (i j : Nat)
    (h : s.label_at i = s.label_at j) :
    s.is_index_selected i = s.is_index_selected j ∧
    s.is_index_banned i = s.is_index_banned j ∧
    (s.ban_selection_by_index i true).is_index_banned j = true ∧
    (s.ban_selection_by_index i true).is_index_selected j = false ∧
    (s.unban_selection_by_index i true).is_index_banned j = false := by
  refine ⟨?_, ?_, ?_, ?_, ?_⟩
  · unfold is_index_selected; rw [h]
  · unfold is_index_banned; rw [h]
  · unfold is_index_banned
    rw [label_at_congr _ s j (ban_selection s i true), ban_banned_board]
    unfold updateBoard
    rw [if_pos h.symm]
  · unfold is_index_selected
    rw [label_at_congr _ s j (ban_selection s i true), ban_sel_board]
    unfold updateBoard
    rw [if_pos h.symm]
  · unfold is_index_banned
    rw [label_at_congr _ s j (unban_selection s i true), unban_banned_board]
    unfold updateBoard
    rw [if_pos h.symm]

/-- C9 witness: two items labelled X alias each other's flags. -/
theorem c9_witness :
    duplicate_label_session.label_at 0 = duplicate_label_session.label_at 1 ∧
    (duplicate_label_session.is_index_selected 0
        = duplicate_label_session.is_index_selected 1 ∧
      duplicate_label_session.is_index_banned 0
        = duplicate_label_session.is_index_banned 1 ∧
      (duplicate_label_session.ban_selection_by_index 0 true).is_index_banned 1 = true ∧
      (duplicate_label_session.ban_selection_by_index 0 true).is_index_selected 1 = false ∧
      (duplicate_label_session.unban_selection_by_index 0 true).is_index_banned 1 = false) :=
  ⟨rfl, c9_boards_keyed_by_label duplicate_label_session 0 1 rfl⟩


/-- C2: for a mutex pair (iA, iB) of a multi-selection session with pairwise
distinct labels, activating the unselected focused item iA returns normally,
bans iB and clears its selected flag; activating iA again (now a deselection)
unbans iB; and along every continuation of the session items iA and iB are
never both selected. -/
theorem c2_mutex_pair_ban_unban_never_both (s : Selman) (iA iB : Nat)
    (hmul : s.allow_multiple_selection = true)
    (hA : s.get_opposite_mutex_index iA = Except.ok (some iB))
    (hB : s.get_opposite_mutex_index iB = Except.ok (some iA))
    (hlA : iA < s.selection.length) (hlB : iB < s.selection.length)
    (hd : ∀ i, i < s.selection.length → ∀ j, j < s.selection.length → i ≠ j →
      s.label_at i ≠ s.label_at j)
    (hfoc : s.current_index = iA)
    (hsel : s.is_index_selected iA = false) :
    (s.select_option).2 = Except.ok none ∧
    (s.select_option).1.is_index_banned iB = true ∧
    (s.select_option).1.is_index_selected iB = false ∧
    ((s.select_option).1.select_option).1.is_index_banned iB = false ∧
    (∀ t, Reachable s t →
      ¬(t.is_index_selected iA = true ∧ t.is_index_selected iB = true)) := by
  have hBA : iB ≠ iA := get_opposite_ne s iA iB hA
  have hABne : iA ≠ iB := hBA.symm
  have hlabne : s.label_at iA ≠ s.label_at iB := hd iA hlA iB hlB hABne
  have h2 : s.sel_board (s.label_at s.current_index) = false := by
    unfold is_index_selected at hsel
    rw [hfoc]
    exact hsel
  have hoppA : s.get_opposite_mutex_index s.current_index = Except.ok (some iB) := by
    rw [hfoc]; exact hA
  obtain ⟨hs1, hb1, hr1⟩ := select_unsel_some_boards s iB hmul h2 hoppA
  have hlab1 : ∀ i : Nat, (s.select_option).1.label_at i = s.label_at i :=
    fun i => label_at_congr _ s i (select_option_selection s)
  have hfc : s.label_at s.current_index = s.label_at iA := by rw [hfoc]
  have hbanB : (s.select_option).1.is_index_banned iB = true := by
    unfold is_index_banned
    rw [hlab1 iB, hb1]
    unfold updateBoard
    rw [if_pos rfl]
  have hselB : (s.select_option).1.is_index_selected iB = false := by
    unfold is_index_selected
    rw [hlab1 iB, hs1]
    unfold updateBoard
    rw [if_pos rfl]
  refine ⟨hr1, hbanB, hselB, ?_, ?_⟩
  · have hc1 : (s.select_option).1.current_index = iA := by
      rw [select_option_current]; exact hfoc
    have h2b : (s.select_option).1.sel_board
        ((s.select_option).1.label_at (s.select_option).1.current_index) = true := by
      rw [hlab1, hc1, hs1]
      unfold updateBoard
      rw [if_neg (fun hq => hlabne hq), if_pos hfc.symm]
    have hopp1 : (s.select_option).1.get_opposite_mutex_index
        (s.select_option).1.current_index = Except.ok (some iB) := by
      rw [get_opposite_lift _ s (select_option_mutex s) (select_option_current s)]
      exact hoppA
    obtain ⟨hs2, hb2, hr2⟩ := select_sel_unban_boards (s.select_option).1 iB
      (by rw [select_option_multi]; exact hmul) h2b hopp1 hbanB
    unfold is_index_banned
    rw [label_at_congr _ (s.select_option).1 iB (select_option_selection _), hb2, hlab1 iB]
    unfold updateBoard
    rw [if_pos rfl]
  · have h0 : pair_inv s iA iB s := by
      refine ⟨rfl, rfl, hmul, by rw [hfoc]; exact hlA, ?_⟩
      rintro ⟨ha, _⟩
      unfold is_index_selected at hsel
      rw [ha] at hsel
      cases hsel
    intro t ht
    have hinv := pair_inv_reachable s iA iB hA hB hlA hlB hd h0 t ht
    obtain ⟨hsc, _, _, _, hnb⟩ := hinv
    rintro ⟨ha, hb⟩
    apply hnb
    constructor
    · unfold is_index_selected at ha
      rw [label_at_congr t s iA hsc] at ha
      exact ha
    · unfold is_index_selected at hb
      rw [label_at_congr t s iB hsc] at hb
      exact hb

/-- C2 witness: the theorem instantiated on the two-item mutex session. -/
theorem c2_witness :
    (mutex_pair_scenario.select_option).2 = Except.ok none ∧
    (mutex_pair_scenario.select_option).1.is_index_banned 1 = true ∧
    (mutex_pair_scenario.select_option).1.is_index_selected 1 = false ∧
    ((mutex_pair_scenario.select_option).1.select_option).1.is_index_banned 1 = false ∧
    ¬(mutex_pair_scenario.is_index_selected 0 = true ∧
      mutex_pair_scenario.is_index_selected 1 = true) := by
  have h := c2_mutex_pair_ban_unban_never_both mutex_pair_scenario 0 1 rfl rfl rfl
    (by decide) (by decide) (by decide) rfl rfl
  exact ⟨h.1, h.2.1, h.2.2.1, h.2.2.2.1, h.2.2.2.2 mutex_pair_scenario Reachable.refl⟩

/-- C6: in multi-selection mode, n consecutive activations of one focused
item (whose mutex partner, if any, carries a different label) leave the item
selected exactly when n is odd, and its banned flag is false after every one
of the n activations. -/
theorem c6_toggle_parity (s : Selman) (n : Nat)
    (h1 : s.allow_multiple_selection = true)
    (h2 : opposite_label_ok s = true)
    (h3 : s.is_index_selected s.current_index = false) :
    (select_iter s n).2 = Except.ok () ∧
    (select_iter s n).1.current_index = s.current_index ∧
    (select_iter s n).1.is_index_selected s.current_index = decide (n % 2 = 1) ∧
    (1 ≤ n → (select_iter s n).1.is_index_banned s.current_index = false) := by
  have h3b : s.sel_board (s.label_at s.current_index) = false := h3
  obtain ⟨hok, hsc, hmx, hcur, hmul, hol, hsel, hban⟩ := select_iter_spec s h1 h2 h3b n
  have hfix : (select_iter s n).1.label_at s.current_index = s.label_at s.current_index :=
    label_at_congr _ s _ hsc
  refine ⟨hok, hcur, ?_, ?_⟩
  · unfold is_index_selected
    rw [hfix]
    exact hsel
  · intro hn
    unfold is_index_banned
    rw [hfix]
    exact hban hn

/-- C6 witness: three activations of item 0 of the mutex session leave it
selected (3 is odd) with a clear banned flag. -/
theorem c6_witness :
    (mutex_pair_scenario.allow_multiple_selection = true ∧
      opposite_label_ok mutex_pair_scenario = true ∧
      mutex_pair_scenario.is_index_selected mutex_pair_scenario.current_index = false) ∧
    ((select_iter mutex_pair_scenario 3).2 = Except.ok () ∧
      (select_iter mutex_pair_scenario 3).1.current_index
        = mutex_pair_scenario.current_index ∧
      (select_iter mutex_pair_scenario 3).1.is_index_selected
          mutex_pair_scenario.current_index = decide (3 % 2 = 1) ∧
      (1 ≤ 3 → (select_iter mutex_pair_scenario 3).1.is_index_banned
          mutex_pair_scenario.current_index = false)) :=
  ⟨⟨rfl, rfl, rfl⟩, c6_toggle_parity mutex_pair_scenario 3 rfl rfl rfl⟩

/-- C10: when every configured mutex set containing the index has a second,
distinct member, `get_opposite_mutex_index` cannot reach its error branch: it
returns none when the group is absent or no set matches, and otherwise a
member j of the first matching set with j distinct from the index. -/
theorem c10_opposite_lookup_safe (s : Selman) (i : Nat)
    (h : ∀ g ∈ s.mutex_group.getD [], i ∈ g → ∃ j ∈ g, j ≠ i) :
    ∃ r : Option Nat, s.get_opposite_mutex_index i = Except.ok r ∧
      (s.mutex_group = none → r = none) ∧
      (∀ sets, s.mutex_group = some sets →
        sets.find? (fun g => g.contains i) = none → r = none) ∧
      (∀ j, r = some j → j ≠ i ∧
        ∃ sets g, s.mutex_group = some sets ∧
          sets.find? (fun g => g.contains i) = some g ∧ j ∈ g) := by
  unfold get_opposite_mutex_index
  rcases hmg : s.mutex_group with _ | sets
  · refine ⟨none, rfl, fun _ => rfl, ?_, ?_⟩
    · intro sets hs2
      cases hs2
    · intro j hj
      cases hj
  · dsimp only
    rcases hf : sets.find? (fun g => g.contains i) with _ | g
    · rw [hf]
      refine ⟨none, rfl, ?_, fun _ _ _ => rfl, ?_⟩
      · intro hnone
        cases hnone
      · intro j hj
        cases hj
    · rw [hf]
      dsimp only
      have hgmem : g ∈ sets := List.mem_of_find?_eq_some hf
      have hgi : i ∈ g := by
        have := List.find?_some hf
        simpa using this
      have hex : ∃ j ∈ g, j ≠ i := h g (by rw [hmg]; simpa using hgmem) hgi
      obtain ⟨j0, hj0g, hj0ne⟩ := hex
      have hfl : g.filter (fun x => x != i) ≠ [] := by
        simp only [ne_eq, List.filter_eq_nil_iff]
        push_neg
        exact ⟨j0, hj0g, by simp [hj0ne]⟩
      rcases hh : (g.filter (fun x => x != i)).head? with _ | j1
      · rw [List.head?_eq_none_iff] at hh
        exact absurd hh hfl
      · have hj1mem : j1 ∈ g.filter (fun x => x != i) := by
          cases hq : g.filter (fun x => x != i) with
          | nil => rw [hq] at hh; cases hh
          | cons x xs =>
            rw [hq] at hh
            injection hh with hx
            subst hx
            exact List.mem_cons_self x xs
        refine ⟨some j1, rfl, ?_, ?_, ?_⟩
        · intro hnone
          cases hnone
        · intro sets2 hs2 hfind2
          injection hs2 with hs3
          subst hs3
          rw [hf] at hfind2
          cases hfind2
        · intro j hj
          injection hj with hj2
          subst hj2
          refine ⟨?_, sets, g, rfl, hf, List.mem_of_mem_filter hj1mem⟩
          have := List.of_mem_filter hj1mem
          simpa using this

/-- C10 witness: the lookup on a well-formed one-pair group returns the
partner. -/
theorem c10_witness :
    (∀ g ∈ (mutex_pair_scenario.mutex_group).getD [], 0 ∈ g → ∃ j ∈ g, j ≠ 0) ∧
    ∃ r : Option Nat, mutex_pair_scenario.get_opposite_mutex_index 0 = Except.ok r ∧
      (mutex_pair_scenario.mutex_group = none → r = none) ∧
      (∀ sets, mutex_pair_scenario.mutex_group = some sets →
        sets.find? (fun g => g.contains 0) = none → r = none) ∧
      (∀ j, r = some j → j ≠ 0 ∧
        ∃ sets g, mutex_pair_scenario.mutex_group = some sets ∧
          sets.find? (fun g => g.contains 0) = some g ∧ j ∈ g) :=
  ⟨by decide, c10_opposite_lookup_safe mutex_pair_scenario 0 (by decide)⟩

namespace Selman

/-- A multi-selection session where a third item shares the label of mutex
pair member 0: items X, Y, X with the pair (0, 1). -/
def aliased_pair_session : Selman :=
  Selman.init ["X", "Y", "X"] 0 true (some [[0, 1]]) none true

/-- A multi-selection session whose mutex pair members share one label:
items X, X with the pair (0, 1). -/
def aliased_partner_session : Selman :=
  Selman.init ["X", "X"] 0 true (some [[0, 1]]) none true

end Selman

/-- C2 counterexample: the claim fails as frozen once labels repeat, because
the flag boards are keyed by label. In the session with items X, Y, X and
mutex pair (0, 1), the key sequence j, Enter, j, Enter selects item 1 (which
bans item 0) and then item 2; item 2 shares item 0's label, so after these
session operations both members of the mutex pair read as selected. -/
theorem c2_counterexample_aliased_labels :
    aliased_pair_session.allow_multiple_selection = true ∧
    aliased_pair_session.get_opposite_mutex_index 0 = Except.ok (some 1) ∧
    aliased_pair_session.get_opposite_mutex_index 1 = Except.ok (some 0) ∧
    Reachable aliased_pair_session
      ((((aliased_pair_session.manage_key_input Key.jKey).1.manage_key_input
        Key.cr).1.manage_key_input Key.jKey).1.manage_key_input Key.cr).1 ∧
    ((((aliased_pair_session.manage_key_input Key.jKey).1.manage_key_input
        Key.cr).1.manage_key_input Key.jKey).1.manage_key_input
        Key.cr).1.is_index_selected 0 = true ∧
    ((((aliased_pair_session.manage_key_input Key.jKey).1.manage_key_input
        Key.cr).1.manage_key_input Key.jKey).1.manage_key_input
        Key.cr).1.is_index_selected 1 = true :=
  ⟨rfl, rfl, rfl,
    Reachable.step _ Key.cr (Reachable.step _ Key.jKey
      (Reachable.step _ Key.cr (Reachable.step _ Key.jKey Reachable.refl))),
    rfl, rfl⟩

/-- C6 counterexample: the claim fails as frozen when the focused item's
mutex partner carries the same label. In the session with items X, X and
mutex pair (0, 1), one activate of item 0 selects it and then bans partner 1
— but the ban writes the shared label, so after n = 1 toggles (odd) the item
reads unselected, and its banned flag is true rather than false. -/
theorem c6_counterexample_aliased_partner :
    aliased_partner_session.allow_multiple_selection = true ∧
    aliased_partner_session.current_index = 0 ∧
    aliased_partner_session.is_index_selected 0 = false ∧
    (select_iter aliased_partner_session 1).2 = Except.ok () ∧
    (select_iter aliased_partner_session 1).1.is_index_selected 0 = false ∧
    (select_iter aliased_partner_session 1).1.is_index_banned 0 = true :=
  ⟨rfl, rfl, rfl, rfl, rfl, rfl⟩
